import Mathlib

/-!
Verification of the GymnasticsScoreTracker core against its specification.

The definitions below are a shallow embedding of the TypeScript source:

* `src/shared/schema.ts` — the data model (users, gymnasts, sessions,
  apparatus, scores).  SQL integer ids become `Nat`, nullable columns
  become `Option`, `decimal` score columns become `ℚ`, and each table is a
  `List` held in a `Storage` record; list order is insertion order, so a row
  appended later was created later.
* `src/server/storage.ts` / `src/unnamed/part_002` — the `DatabaseStorage`
  methods become pure functions over `Storage`.  A drizzle `select ... where`
  with no `orderBy` is modelled as `List.filter` in table order, and an
  `orderBy` clause as an insertion sort by the same keys.
* `src/server/routes.ts` — the route handlers become functions returning
  `Except HttpError`, mirroring the handlers' permission checks and bodies.
* `src/client/src/pages/score-entry.tsx` — the client's final-score
  computation.
-/

namespace GymTracker

/-- Account roles.  `schema.ts` enumerates observer/judge/club/admin and the
routes additionally compare against the role string `gymnast` (registration in
`src/unnamed/part_001` offers it), so the embedding includes all five. -/
inductive Role where
  | observer
  | judge
  | club
  | admin
  | gymnast
deriving DecidableEq

/-- Row of the `users` table (`schema.ts`).  Nullable profile columns are
`Option`; JS `===` on two `null`s is true, which `Option` equality mirrors. -/
structure User where
  id : Nat
  username : String
  firstName : String
  lastName : String
  role : Role
  isApproved : Bool
  clubName : Option String
  clubAffiliation : Option String
deriving DecidableEq

/-- Row of the `gymnasts` table (`schema.ts`): a participant record,
optionally linked to a user account via `userId`. -/
structure Gymnast where
  id : Nat
  userId : Option Nat
  firstName : String
  lastName : String
  clubName : String
  level : String
  isApproved : Bool
deriving DecidableEq

/-- Row of the `session_gymnasts` join table (`schema.ts`). -/
structure SessionGymnast where
  sessionId : Nat
  gymnastId : Nat
deriving DecidableEq

/-- Row of the `apparatus` table (`schema.ts`); `code` carries a unique
constraint. -/
structure Apparatus where
  id : Nat
  name : String
  code : String
  icon : String
deriving DecidableEq

/-- Row of the `events` table (`schema.ts`), reduced to the columns the
verified operations read. -/
structure Event where
  id : Nat
  name : String
deriving DecidableEq

/-- Row of the `event_sessions` table (`schema.ts`), reduced to the columns
the verified operations read; `date` is an abstract day number used only as a
sort key. -/
structure EventSession where
  id : Nat
  eventId : Nat
  name : String
  date : Nat
deriving DecidableEq

/-- Row of the `scores` table (`schema.ts`).  The final-score column is named
`finalScore` there; the stats query of `src/unnamed/part_002` selects the same
per-routine total under the name `total`. -/
structure Score where
  id : Nat
  sessionId : Nat
  gymnastId : Nat
  apparatusId : Nat
  judgeId : Nat
  difficultyScore : ℚ
  executionScore : ℚ
  deductions : ℚ
  finalScore : ℚ
  notes : String
deriving DecidableEq

/-- Body of `POST /api/scores` after `insertScoreSchema.parse`: the score
columns minus the generated id/timestamps (`schema.ts`, insert schemas). -/
structure InsertScore where
  sessionId : Nat
  gymnastId : Nat
  apparatusId : Nat
  judgeId : Nat
  difficultyScore : ℚ
  executionScore : ℚ
  deductions : ℚ
  finalScore : ℚ
  notes : String
deriving DecidableEq

/-- Argument of `storage.createGymnast` (`InsertGymnast` in `schema.ts`). -/
structure InsertGymnast where
  userId : Option Nat
  firstName : String
  lastName : String
  clubName : String
  level : String
  isApproved : Bool
deriving DecidableEq

/-- One roster entry of the `POST /api/sessions/:sessionId/gymnasts` body
(`routes.ts` reads firstName, lastName, clubName and an optional level). -/
structure RosterEntry where
  firstName : String
  lastName : String
  clubName : String
  level : Option String
deriving DecidableEq

/-- Per-entry outcome pushed onto `results` by the roster handler
(`routes.ts`): the matched flag and the id the entry was bound to. -/
structure RosterResult where
  entry : RosterEntry
  matched : Bool
  gymnastId : Nat
deriving DecidableEq

/-- The whole database as the storage collaborator sees it.  Each list is a
table in insertion order; the `next…Id` counters model the serial primary
keys. -/
structure Storage where
  users : List User
  gymnasts : List Gymnast
  sessionGymnasts : List SessionGymnast
  scores : List Score
  apparatus : List Apparatus
  events : List Event
  eventSessions : List EventSession
  nextGymnastId : Nat
  nextScoreId : Nat
  nextApparatusId : Nat
deriving DecidableEq

/-- Error outcomes of a route handler: the HTTP status classes the handlers
of `routes.ts` produce (403, 404, 400, 500) with their response message. -/
inductive HttpError where
  | forbidden (msg : String)
  | notFound (msg : String)
  | badRequest (msg : String)
  | serverError (msg : String)
deriving DecidableEq

/-- Storage method `getUser` (`storage.ts`): first row of
`select from users where id = …`. -/
def getUser (st : Storage) (id : Nat) : Option User :=
  st.users.find? (fun u => decide (u.id = id))

/-- Storage method `updateUserRole` (`storage.ts`): set role and isApproved
on the row with the given id. -/
def updateUserRole (st : Storage) (id : Nat) (role : Role) (isApproved : Bool) :
    Storage :=
  { st with
    users := st.users.map (fun u =>
      if u.id = id then { u with role := role, isApproved := isApproved } else u) }

/-- Body of the `searchGymnastsByName` query over the users table: users
whose firstName, lastName match exactly (case-sensitive string equality) and
whose role is gymnast. -/
def searchUsersByName (users : List User) (firstName lastName : String) :
    List User :=
  users.filter (fun u =>
    decide (u.firstName = firstName ∧ u.lastName = lastName ∧ u.role = Role.gymnast))

/-- Storage method `searchGymnastsByName` (`src/unnamed/part_002`): the query
above against the stored users.  It has no `orderBy`, so the rows come back
in table order. -/
def searchGymnastsByName (st : Storage) (firstName lastName : String) :
    List User :=
  searchUsersByName st.users firstName lastName

/-- Storage method `createGymnast` (`storage.ts`): insert returning the new
row, whose serial id is the next counter value. -/
def createGymnast (st : Storage) (g : InsertGymnast) : Storage × Gymnast :=
  let row : Gymnast :=
    { id := st.nextGymnastId
      userId := g.userId
      firstName := g.firstName
      lastName := g.lastName
      clubName := g.clubName
      level := g.level
      isApproved := g.isApproved }
  ({ st with gymnasts := st.gymnasts ++ [row], nextGymnastId := st.nextGymnastId + 1 },
   row)

/-- Storage method `addGymnastToSession` (`storage.ts`): insert one join
row. -/
def addGymnastToSession (st : Storage) (sessionId gymnastId : Nat) : Storage :=
  { st with sessionGymnasts := st.sessionGymnasts ++ [⟨sessionId, gymnastId⟩] }

/-- Ordering used by `getScoresBySession` (`storage.ts`):
`orderBy(asc(scores.gymnastId), asc(scores.apparatusId))`. -/
def scoreOrd (a b : Score) : Prop :=
  a.gymnastId < b.gymnastId ∨ (a.gymnastId = b.gymnastId ∧ a.apparatusId ≤ b.apparatusId)

instance : DecidableRel scoreOrd := fun a b => by
  unfold scoreOrd; infer_instance

instance : IsTotal Score scoreOrd where
  total a b := by unfold scoreOrd; omega

instance : IsTrans Score scoreOrd where
  trans a b c := by unfold scoreOrd; omega

/-- Storage method `getScoresBySession` (`storage.ts` lines 221–227): all
scores of the session, ordered ascending by gymnastId then apparatusId. -/
def getScoresBySession (st : Storage) (sessionId : Nat) : List Score :=
  List.insertionSort scoreOrd (st.scores.filter (fun s => decide (s.sessionId = sessionId)))

/-- Storage method `getScore` (`storage.ts` lines 229–241): the select has no
`orderBy`, and the code destructures the first returned row, i.e. the first
matching row in table order. -/
def getScore (st : Storage) (sessionId gymnastId apparatusId : Nat) : Option Score :=
  (st.scores.filter (fun s =>
    decide (s.sessionId = sessionId ∧ s.gymnastId = gymnastId ∧
      s.apparatusId = apparatusId))).head?

/-- Storage method `createScore` (`storage.ts`): insert returning the new row;
nothing is deleted or overwritten. -/
def createScore (st : Storage) (b : InsertScore) : Storage × Score :=
  let row : Score :=
    { id := st.nextScoreId
      sessionId := b.sessionId
      gymnastId := b.gymnastId
      apparatusId := b.apparatusId
      judgeId := b.judgeId
      difficultyScore := b.difficultyScore
      executionScore := b.executionScore
      deductions := b.deductions
      finalScore := b.finalScore
      notes := b.notes }
  ({ st with scores := st.scores ++ [row], nextScoreId := st.nextScoreId + 1 }, row)

/-- Ordering used by `getApparatus` (`storage.ts`): `orderBy(asc(apparatus.id))`. -/
def appOrd (a b : Apparatus) : Prop := a.id ≤ b.id

instance : DecidableRel appOrd := fun a b => by
  unfold appOrd; infer_instance

instance : IsTotal Apparatus appOrd where
  total a b := by unfold appOrd; omega

instance : IsTrans Apparatus appOrd where
  trans a b c := by unfold appOrd; omega

/-- Storage method `getApparatus` (`storage.ts`): all apparatus rows ordered
ascending by id. -/
def getApparatus (st : Storage) : List Apparatus :=
  List.insertionSort appOrd st.apparatus

/-- One element of the `defaultApparatus` array of `initializeApparatus`
(`storage.ts` lines 155–170). -/
structure ApparatusSeed where
  name : String
  code : String
  icon : String

/-- The `defaultApparatus` array of `storage.ts` lines 156–165, verbatim. -/
def defaultApparatus : List ApparatusSeed :=
  [ ⟨"Floor Exercise", "FX", "fas fa-running"⟩,
    ⟨"Pommel Horse", "PH", "fas fa-horse-head"⟩,
    ⟨"Still Rings", "SR", "fas fa-circle"⟩,
    ⟨"Vault", "VT", "fas fa-horse"⟩,
    ⟨"Parallel Bars", "PB", "fas fa-grip-horizontal"⟩,
    ⟨"High Bar", "HB", "fas fa-grip-lines"⟩,
    ⟨"Balance Beam", "BB", "fas fa-balance-scale"⟩,
    ⟨"Uneven Bars", "UB", "fas fa-grip-horizontal"⟩ ]

/-- One step of `initializeApparatus`: `insert … onConflictDoNothing()`.  The
only conflict target a seed can hit is the unique `code` column, so the row is
inserted exactly when no stored row has its code. -/
def insertApparatusSeed (st : Storage) (a : ApparatusSeed) : Storage :=
  if st.apparatus.any (fun row => decide (row.code = a.code)) then st
  else
    { st with
      apparatus := st.apparatus ++ [⟨st.nextApparatusId, a.name, a.code, a.icon⟩]
      nextApparatusId := st.nextApparatusId + 1 }

/-- Storage method `initializeApparatus` (`storage.ts` lines 155–170): insert
each of the eight default apparatus, skipping codes already present. -/
def initializeApparatus (st : Storage) : Storage :=
  defaultApparatus.foldl insertApparatusSeed st

/-- One row of the stats query of `getGymnastStats`
(`src/unnamed/part_002` lines 263–281): a score joined to the sessions the
gymnast is entered in and to event and apparatus names.  `total` is the
score's final total (the `scores.total` column selected there, the
final-score column of that code generation). -/
structure StatsRow where
  scoreId : Nat
  difficulty : ℚ
  execution : ℚ
  deductions : ℚ
  total : ℚ
  eventName : String
  sessionName : String
  apparatusName : String
  date : Nat
deriving DecidableEq

/-- Ordering of the stats query: `orderBy(desc(eventSessions.date))`. -/
def dateDescOrd (a b : StatsRow) : Prop := b.date ≤ a.date

instance : DecidableRel dateDescOrd := fun a b => by
  unfold dateDescOrd; infer_instance

instance : IsTotal StatsRow dateDescOrd where
  total a b := by unfold dateDescOrd; omega

instance : IsTrans StatsRow dateDescOrd where
  trans a b c := by unfold dateDescOrd; omega

/-- The join of the stats query (`src/unnamed/part_002` lines 263–281).  Note
the join condition the source uses: `scores` joins `session_gymnasts` on
`gymnastId` alone (not on the score's own session), then follows
`session_gymnasts.sessionId` to the session and its event; `apparatus` joins
on the score's apparatusId.  The rows are ordered by session date
descending. -/
def joinedRows (st : Storage) (gymnastId : Nat) : List StatsRow :=
  List.insertionSort dateDescOrd <|
    (st.scores.filter (fun s => decide (s.gymnastId = gymnastId))).flatMap (fun s =>
      (st.sessionGymnasts.filter (fun sg => decide (sg.gymnastId = gymnastId))).flatMap
        (fun sg =>
          (st.eventSessions.filter (fun es => decide (es.id = sg.sessionId))).flatMap
            (fun es =>
              (st.events.filter (fun ev => decide (ev.id = es.eventId))).flatMap
                (fun ev =>
                  (st.apparatus.filter (fun ap => decide (ap.id = s.apparatusId))).map
                    (fun ap =>
                      { scoreId := s.id
                        difficulty := s.difficultyScore
                        execution := s.executionScore
                        deductions := s.deductions
                        total := s.finalScore
                        eventName := ev.name
                        sessionName := es.name
                        apparatusName := ap.name
                        date := es.date })))))

/-- JS `Math.max(...list)`: `none` models the `-Infinity` the call yields on
an empty list. -/
def listMaxQ : List ℚ → Option ℚ
  | [] => none
  | t :: ts =>
    match listMaxQ ts with
    | none => some t
    | some m => some (max t m)

/-- JS `sum / length`: `none` models the `NaN` a zero-length list yields. -/
def listAvgQ (l : List ℚ) : Option ℚ :=
  if l = [] then none else some (l.sum / l.length)

/-- The `apparatusStats` reduce of `getGymnastStats`
(`src/unnamed/part_002` lines 294–303): group rows by apparatus name in first
occurrence order — every row creates its apparatus key, but only totals `> 0`
are pushed onto the group's score list. -/
def groupApparatus (rows : List StatsRow) : List (String × List ℚ) :=
  rows.foldl
    (fun acc r =>
      let acc :=
        if acc.any (fun p => decide (p.1 = r.apparatusName)) then acc
        else acc ++ [(r.apparatusName, [])]
      if 0 < r.total then
        acc.map (fun p => if p.1 = r.apparatusName then (p.1, p.2 ++ [r.total]) else p)
      else acc)
    []

/-- One entry of the formatted apparatus breakdown
(`src/unnamed/part_002` lines 305–310).  `average`/`best` are `Option`
because an apparatus whose every total is zero keeps an empty score list, on
which the source computes `NaN`/`-Infinity`. -/
structure ApparatusStat where
  apparatus : String
  count : Nat
  average : Option ℚ
  best : Option ℚ
deriving DecidableEq

/-- Result record of `getGymnastStats` (`src/unnamed/part_002` lines
319–327), reduced to its deterministic fields.  The source also returns
`medalsWon`, `topThreeFinishes` and `recentScores`, which are explicitly mock
display data (positions drawn from `Math.random()`) and are outside the
embedding. -/
structure GymnastStats where
  totalCompetitions : Nat
  bestScore : Option ℚ
  averageScore : Option ℚ
  apparatusStats : List ApparatusStat
deriving DecidableEq

/-- Storage method `getGymnastStats` (`src/unnamed/part_002` lines 261–328):
`null` when the join yields no rows; otherwise distinct event names over all
rows, best and average over the totals `> 0`, and the per-apparatus
breakdown. -/
def getGymnastStats (st : Storage) (gymnastId : Nat) : Option GymnastStats :=
  let rows := joinedRows st gymnastId
  if rows = [] then none
  else
    let allScores := (rows.map (fun r => r.total)).filter (fun t => decide (0 < t))
    some
      { totalCompetitions := ((rows.map (fun r => r.eventName)).dedup).length
        bestScore := listMaxQ allScores
        averageScore := listAvgQ allScores
        apparatusStats :=
          (groupApparatus rows).map (fun p =>
            { apparatus := p.1
              count := p.2.length
              average := listAvgQ p.2
              best := listMaxQ p.2 }) }

/-- Approval/rejection body of `PATCH /api/users/:id/role` (`routes.ts` lines
52–59) once permission checks pass.  Approval updates the row keeping its
role and returns the updated user.  Rejection calls `storage.deleteUser`,
which `DatabaseStorage` does not define (neither `storage.ts` nor
`src/unnamed/part_002` has it): at runtime the call raises a TypeError, the
handler's catch answers 500 "Failed to update user role", and no row is
deleted. -/
def patchApply (st : Storage) (id : Nat) (target : User) (isApproved : Bool) :
    Except HttpError (Storage × User) :=
  if isApproved then
    Except.ok (updateUserRole st id target.role true,
      { target with isApproved := true })
  else Except.error (HttpError.serverError "Failed to update user role")

/-- Route handler `PATCH /api/users/:id/role` (`routes.ts` lines 27–64):
look the target up (404 when missing); a gymnast target requires the caller
to be the nominated club by exact clubName equality, any other target
requires an admin caller; then approve or reject per `patchApply`. -/
def patchUserRole (currentUser : User) (st : Storage) (id : Nat)
    (isApproved : Bool) : Except HttpError (Storage × User) :=
  match getUser st id with
  | none => Except.error (HttpError.notFound "User not found")
  | some target =>
    if target.role = Role.gymnast then
      if currentUser.role ≠ Role.club ∨ currentUser.clubName ≠ target.clubAffiliation
      then
        Except.error
          (HttpError.forbidden "Only the nominated club can approve gymnast accounts")
      else patchApply st id target isApproved
    else
      if currentUser.role ≠ Role.admin then
        Except.error (HttpError.forbidden "Only admins can approve these accounts")
      else patchApply st id target isApproved

/-- Route handler `POST /api/scores` (`routes.ts` lines 310–335): only
admins and approved judges pass; the parsed body is stored with `judgeId`
overwritten by the caller's id.  No relation between `finalScore` and the
other fields is checked anywhere on this path. -/
def postScore (currentUser : User) (st : Storage) (body : InsertScore) :
    Except HttpError (Storage × Score) :=
  if currentUser.role ≠ Role.admin ∧ currentUser.role ≠ Role.judge then
    Except.error (HttpError.forbidden "Only judges can enter scores")
  else if currentUser.role = Role.judge ∧ currentUser.isApproved = false then
    Except.error (HttpError.forbidden "Judge account not approved")
  else Except.ok (createScore st { body with judgeId := currentUser.id })

/-- One iteration of the roster loop of
`POST /api/sessions/:sessionId/gymnasts` (`routes.ts` lines 97–129): search
gymnast accounts by exact name; on a match attach the first matching account
id to the session and report `matched = true`; otherwise create an
auto-approved gymnast row, unlinked to any account, with the submitted
names/club and level defaulted to "Unknown", attach it and report
`matched = false`. -/
def resolveEntry (sessionId : Nat) (st : Storage) (e : RosterEntry) :
    Storage × RosterResult :=
  match searchGymnastsByName st e.firstName e.lastName with
  | u :: _ =>
    (addGymnastToSession st sessionId u.id,
     { entry := e, matched := true, gymnastId := u.id })
  | [] =>
    let created := createGymnast st
      { userId := none
        firstName := e.firstName
        lastName := e.lastName
        clubName := e.clubName
        level := e.level.getD "Unknown"
        isApproved := true }
    (addGymnastToSession created.1 sessionId created.2.id,
     { entry := e, matched := false, gymnastId := created.2.id })

/-- The roster loop over the whole batch (`routes.ts` lines 95–129),
threading storage and collecting one result per entry in order. -/
def resolveBatch (sessionId : Nat) (st : Storage) :
    List RosterEntry → Storage × List RosterResult
  | [] => (st, [])
  | e :: rest =>
    let step := resolveEntry sessionId st e
    let tail := resolveBatch sessionId step.1 rest
    (tail.1, step.2 :: tail.2)

/-- Route handler `POST /api/sessions/:sessionId/gymnasts` (`routes.ts`
lines 85–136): admins and clubs only; then the batch is resolved entry by
entry. -/
def addGymnastsToSessionRoute (currentUser : User) (st : Storage)
    (sessionId : Nat) (entries : List RosterEntry) :
    Except HttpError (Storage × List RosterResult) :=
  if currentUser.role ≠ Role.admin ∧ currentUser.role ≠ Role.club then
    Except.error (HttpError.forbidden "Insufficient permissions")
  else Except.ok (resolveBatch sessionId st entries)

/-- Route handler `GET /api/gymnasts/:id/stats` (`routes.ts` lines 357–373):
the stats are served only to the gymnast themselves or to an admin; everyone
else gets 403 "Access denied". -/
def getGymnastStatsRoute (currentUser : User) (st : Storage) (id : Nat) :
    Except HttpError (Option GymnastStats) :=
  if currentUser.id ≠ id ∧ currentUser.role ≠ Role.admin then
    Except.error (HttpError.forbidden "Access denied")
  else Except.ok (getGymnastStats st id)

/-- Client final-score computation (`score-entry.tsx` lines 114–122):
`max(0, difficulty + execution − deductions)`; the same value is what
`onSubmit` sends as `finalScore` (displayed to one decimal place). -/
def computeFinal (difficulty execution deductions : ℚ) : ℚ :=
  max 0 (difficulty + execution - deductions)

/-- Modelled from the spec: the clamp of §3's ScoreEntry invariant,
`clamp(x, lo, hi) = max lo (min x hi)`, stated for comparison with what the
code stores. -/
def clampSpec (x lo hi : ℚ) : ℚ :=
  max lo (min x hi)

/-- Modelled from the spec: §4.6's `totalCompetitions` — the number of
distinct competitions in which the participant has at least one entry with a
positive final total — stated for comparison with what `getGymnastStats`
computes. -/
def specTotalCompetitions (st : Storage) (gymnastId : Nat) : Nat :=
  ((((joinedRows st gymnastId).filter (fun r => decide (0 < r.total))).map
    (fun r => r.eventName)).dedup).length

/-- The totals the stats aggregation averages over: the final totals of the
joined rows that are strictly positive (the `allScores` array of
`getGymnastStats`). -/
def positiveTotals (st : Storage) (gymnastId : Nat) : List ℚ :=
  ((joinedRows st gymnastId).map (fun r => r.total)).filter (fun t => decide (0 < t))

/-- What the roster handler guarantees for one entry and its result, judged
against the users table the batch started from (the batch never writes
`users`) and the storage it ended in: the result echoes the entry; on a
name match it reports `matched = true` bound to the first matching account's
id, and otherwise `matched = false` bound to a freshly created auto-approved
gymnast row carrying the submitted fields and linked to no account. -/
def entryResolved (users : List User) (stFinal : Storage) (e : RosterEntry)
    (r : RosterResult) : Prop :=
  r.entry = e ∧
  match searchUsersByName users e.firstName e.lastName with
  | u :: _ => r.matched = true ∧ r.gymnastId = u.id
  | [] =>
    r.matched = false ∧
    ∃ g ∈ stFinal.gymnasts,
      g.id = r.gymnastId ∧ g.userId = none ∧ g.isApproved = true ∧
      g.firstName = e.firstName ∧ g.lastName = e.lastName ∧
      g.clubName = e.clubName ∧ g.level = e.level.getD "Unknown"

/-- A database with every table empty. -/
def emptyStorage : Storage := ⟨[], [], [], [], [], [], [], 1, 1, 1⟩

/-- Fixture: an admin account. -/
def adminU : User := ⟨1, "admin", "Ada", "Min", Role.admin, true, none, none⟩

/-- Fixture: an approved judge account. -/
def judgeU : User := ⟨7, "judge", "Ju", "Dge", Role.judge, true, none, none⟩

/-- Fixture: a score submission whose `finalScore` (99) is unrelated to its
difficulty (1), execution (1) and deductions (0). -/
def badBody : InsertScore := ⟨1, 1, 1, 0, 1, 1, 0, 99, ""⟩

/-- The row `postScore judgeU emptyStorage badBody` persists. -/
def badStored : Score := ⟨1, 1, 1, 1, 7, 1, 1, 0, 99, ""⟩

/-- Fixture: session-1 score of gymnast 1 with final 5. -/
def scoreA : Score := ⟨1, 1, 1, 1, 7, 0, 0, 0, 5, ""⟩

/-- Fixture: session-1 score of gymnast 2 with final 9. -/
def scoreB : Score := ⟨2, 1, 2, 1, 7, 0, 0, 0, 9, ""⟩

/-- Fixture: a session whose stored scores are `scoreA` then `scoreB`. -/
def rankSt : Storage := ⟨[], [], [], [scoreA, scoreB], [], [], [], 1, 3, 1⟩

/-- Fixture: an event, a session of it, a floor apparatus and a participant
entered in the session, shared by the stats and resubmission states. -/
def exEvent : Event := ⟨1, "Event A"⟩

/-- Fixture: the single session of `exEvent`. -/
def exSession : EventSession := ⟨1, 1, "Session 1", 0⟩

/-- Fixture: the floor apparatus row. -/
def exFloor : Apparatus := ⟨1, "Floor Exercise", "FX", "fas fa-running"⟩

/-- Fixture: the participant row entered in `exSession`. -/
def exGymRow : Gymnast := ⟨1, none, "Jane", "Doe", "Club X", "L5", true⟩

/-- Fixture: earlier score of the tuple (session 1, gymnast 1, floor), final
5. -/
def dupOld : Score := ⟨1, 1, 1, 1, 7, 0, 0, 0, 5, ""⟩

/-- Fixture: later score of the same tuple, final 9. -/
def dupNew : Score := ⟨2, 1, 1, 1, 7, 0, 0, 0, 9, ""⟩

/-- Fixture: a database where the tuple (session 1, gymnast 1, floor) was
scored twice: `dupOld` first, `dupNew` later. -/
def dupSt : Storage :=
  ⟨[], [exGymRow], [⟨1, 1⟩], [dupOld, dupNew], [exFloor], [exEvent], [exSession], 2, 3, 2⟩

/-- Fixture: gymnast 1 scored three floor routines with totals 8, 0 and
9.5. -/
def floorSt : Storage :=
  ⟨[], [exGymRow], [⟨1, 1⟩],
   [⟨1, 1, 1, 1, 7, 0, 0, 0, 8, ""⟩,
    ⟨2, 1, 1, 1, 7, 0, 0, 0, 0, ""⟩,
    ⟨3, 1, 1, 1, 7, 0, 0, 0, 19/2, ""⟩],
   [exFloor], [exEvent], [exSession], 2, 4, 2⟩

/-- Fixture: gymnast 1 has exactly one scored routine and its total is 0. -/
def zeroSt : Storage :=
  ⟨[], [exGymRow], [⟨1, 1⟩], [⟨1, 1, 1, 1, 7, 0, 0, 0, 0, ""⟩],
   [exFloor], [exEvent], [exSession], 2, 2, 2⟩

/-- Fixture: a pending gymnast account that nominated "Club A". -/
def gymTarget : User :=
  ⟨2, "jane", "Jane", "Doe", Role.gymnast, false, none, some "Club A"⟩

/-- Fixture: a club account whose clubName differs from the nominated club
only by case. -/
def mismatchClub : User :=
  ⟨3, "club", "Cl", "Ub", Role.club, true, some "club A", none⟩

/-- Fixture: a database holding the pending gymnast and the mismatched
club. -/
def gymSt : Storage := ⟨[gymTarget, mismatchClub], [], [], [], [], [], [], 1, 1, 1⟩

/-- Fixture: an already-approved judge account with id 2. -/
def approvedJudge : User := ⟨2, "judge2", "Jo", "Judge", Role.judge, true, none, none⟩

/-- Fixture: a database holding the admin and the approved judge. -/
def usersSt : Storage := ⟨[adminU, approvedJudge], [], [], [], [], [], [], 1, 1, 1⟩

/-- Fixture: the roster entry of §8's roster-resolution example. -/
def janeEntry : RosterEntry := ⟨"Jane", "Doe", "Club X", none⟩

/-- Resolving one roster entry never writes the users table. -/
theorem resolveEntry_users (sessionId : Nat) (st : Storage) (e : RosterEntry) :
    ((resolveEntry sessionId st e).1).users = st.users := by
  unfold resolveEntry
  cases searchGymnastsByName st e.firstName e.lastName <;>
    simp [addGymnastToSession, createGymnast]

/-- Resolving one roster entry never writes the apparatus table. -/
theorem resolveEntry_apparatus (sessionId : Nat) (st : Storage) (e : RosterEntry) :
    ((resolveEntry sessionId st e).1).apparatus = st.apparatus := by
  unfold resolveEntry
  cases searchGymnastsByName st e.firstName e.lastName <;>
    simp [addGymnastToSession, createGymnast]

/-- Resolving one roster entry keeps every stored gymnast row. -/
theorem resolveEntry_gymnasts_mono (sessionId : Nat) (st : Storage) (e : RosterEntry)
    {g : Gymnast} (hg : g ∈ st.gymnasts) :
    g ∈ ((resolveEntry sessionId st e).1).gymnasts := by
  unfold resolveEntry
  cases searchGymnastsByName st e.firstName e.lastName with
  | nil => simp only [addGymnastToSession, createGymnast]; exact List.mem_append_left _ hg
  | cons u us => simpa [addGymnastToSession] using hg

/-- Resolving one roster entry appends exactly one session attachment, for
the id the result reports. -/
theorem resolveEntry_attachment (sessionId : Nat) (st : Storage) (e : RosterEntry) :
    ((resolveEntry sessionId st e).1).sessionGymnasts =
      st.sessionGymnasts ++ [⟨sessionId, ((resolveEntry sessionId st e).2).gymnastId⟩] := by
  unfold resolveEntry
  cases searchGymnastsByName st e.firstName e.lastName <;>
    simp [addGymnastToSession, createGymnast]

/-- Resolving one roster entry meets its per-entry contract, judged in the
state it produced. -/
theorem resolveEntry_resolved (sessionId : Nat) (st : Storage) (e : RosterEntry) :
    entryResolved st.users ((resolveEntry sessionId st e).1) e ((resolveEntry sessionId st e).2) := by
  unfold entryResolved resolveEntry
  cases h : searchGymnastsByName st e.firstName e.lastName with
  | cons u us => rw [searchGymnastsByName] at h; rw [h]; exact ⟨rfl, rfl, rfl⟩
  | nil =>
    rw [searchGymnastsByName] at h
    rw [h]
    refine ⟨rfl, rfl, ?_⟩
    refine ⟨_, by simp [addGymnastToSession, createGymnast], rfl, rfl, rfl, rfl, rfl, rfl, rfl⟩

/-- The per-entry contract only needs gymnast rows to survive into later
states. -/
theorem entryResolved_mono {users : List User} {st₁ st₂ : Storage} {e : RosterEntry}
    {r : RosterResult} (hsub : ∀ g : Gymnast, g ∈ st₁.gymnasts → g ∈ st₂.gymnasts)
    (h : entryResolved users st₁ e r) : entryResolved users st₂ e r := by
  unfold entryResolved at h ⊢
  cases hs : searchUsersByName users e.firstName e.lastName with
  | cons u us => rw [hs] at h; exact h
  | nil =>
    rw [hs] at h
    obtain ⟨he, hm, g, hg, rest⟩ := h
    exact ⟨he, hm, g, hsub g hg, rest⟩

/-- The batch loop never writes the users table. -/
theorem resolveBatch_users (sessionId : Nat) :
    ∀ (entries : List RosterEntry) (st : Storage),
      ((resolveBatch sessionId st entries).1).users = st.users := by
  intro entries
  induction entries with
  | nil => intro st; rfl
  | cons e rest ih =>
    intro st
    rw [resolveBatch]
    exact (ih _).trans (resolveEntry_users sessionId st e)

/-- The batch loop never writes the apparatus table. -/
theorem resolveBatch_apparatus (sessionId : Nat) :
    ∀ (entries : List RosterEntry) (st : Storage),
      ((resolveBatch sessionId st entries).1).apparatus = st.apparatus := by
  intro entries
  induction entries with
  | nil => intro st; rfl
  | cons e rest ih =>
    intro st
    rw [resolveBatch]
    exact (ih _).trans (resolveEntry_apparatus sessionId st e)

/-- The batch loop keeps every stored gymnast row. -/
theorem resolveBatch_gymnasts_mono (sessionId : Nat) :
    ∀ (entries : List RosterEntry) (st : Storage) (g : Gymnast),
      g ∈ st.gymnasts → g ∈ ((resolveBatch sessionId st entries).1).gymnasts := by
  intro entries
  induction entries with
  | nil => intro st g hg; exact hg
  | cons e rest ih =>
    intro st g hg
    rw [resolveBatch]
    exact ih _ g (resolveEntry_gymnasts_mono sessionId st e hg)

/-- The empty maximum is exactly the empty list (JS `-Infinity`). -/
theorem listMaxQ_eq_none_iff (l : List ℚ) : listMaxQ l = none ↔ l = [] := by
  cases l with
  | nil => simp [listMaxQ]
  | cons t ts => cases h : listMaxQ ts <;> simp [listMaxQ, h]

/-- A computed maximum is an element of the list. -/
theorem listMaxQ_mem : ∀ {l : List ℚ} {b : ℚ}, listMaxQ l = some b → b ∈ l := by
  intro l
  induction l with
  | nil => intro b h; simp [listMaxQ] at h
  | cons t ts ih =>
    intro b h
    rw [listMaxQ] at h
    cases hts : listMaxQ ts with
    | none => rw [hts] at h; simp at h; simp [h]
    | some m =>
      rw [hts] at h
      simp at h
      rcases max_choice t m with hc | hc
      · rw [← h, hc]; exact List.mem_cons_self t ts
      · rw [← h, hc]; exact List.mem_cons_of_mem t (ih hts)

/-- A computed maximum bounds every element of the list. -/
theorem le_listMaxQ : ∀ {l : List ℚ} {t b : ℚ}, t ∈ l → listMaxQ l = some b → t ≤ b := by
  intro l
  induction l with
  | nil => intro t b ht _; cases ht
  | cons a ts ih =>
    intro t b ht h
    rw [listMaxQ] at h
    cases hts : listMaxQ ts with
    | none =>
      rw [hts] at h
      simp at h
      rcases List.mem_cons.mp ht with rfl | hmem
      · rw [h]
      · rw [(listMaxQ_eq_none_iff ts).mp hts] at hmem; cases hmem
    | some m =>
      rw [hts] at h
      simp at h
      rcases List.mem_cons.mp ht with rfl | hmem
      · rw [← h]; exact le_max_left t m
      · rw [← h]; exact le_trans (ih hmem hts) (le_max_right a m)

/-- C1: for every difficulty and execution in [0,10] and nonnegative
deductions the client score computation is deterministic, equals
`max(0, difficulty + execution − deductions)` and lies in
[0, difficulty + execution]; in particular 5.0/8.5/1.0 gives 12.5 and
2.0/3.0/10.0 clamps to 0. -/
theorem computeFinal_correct :
    (∀ d e ded : ℚ, 0 ≤ d → d ≤ 10 → 0 ≤ e → e ≤ 10 → 0 ≤ ded →
      computeFinal d e ded = max 0 (d + e - ded) ∧
      0 ≤ computeFinal d e ded ∧ computeFinal d e ded ≤ d + e) ∧
    computeFinal 5 (17/2) 1 = 25/2 ∧ computeFinal 2 3 10 = 0 := by
  refine ⟨fun d e ded hd0 hd10 he0 he10 hded =>
    ⟨rfl, le_max_left 0 _, max_le (by linarith) (by linarith)⟩, ?_, ?_⟩ <;>
    norm_num [computeFinal]

/-- C3 counterexample: in a session where gymnast 1 scored 5.0 and gymnast 2
scored 9.0, the scores endpoint returns gymnast 1 first — the list is ordered
by gymnast id, not descending by final score. -/
theorem getScoresBySession_not_descending :
    getScoresBySession rankSt 1 = [scoreA, scoreB] ∧
    scoreA.finalScore < scoreB.finalScore := by
  constructor
  · rfl
  · norm_num [scoreA, scoreB]

/-- C3 as amended: the scores read back for a session are exactly the stored
scores of that session, ordered ascending by gymnastId then apparatusId; no
ordering by final score is applied. -/
theorem getScoresBySession_order :
    ∀ (st : Storage) (sessionId : Nat),
      List.Sorted scoreOrd (getScoresBySession st sessionId) ∧
      ∀ s : Score, s ∈ getScoresBySession st sessionId ↔
        s ∈ st.scores ∧ s.sessionId = sessionId := by
  intro st sessionId
  refine ⟨List.sorted_insertionSort scoreOrd _, fun s => ?_⟩
  rw [getScoresBySession, List.mem_insertionSort, List.mem_filter]
  simp

/-- C7: approving the already-approved judge again succeeds and leaves the
account approved and the database unchanged; rejecting that existing judge
does not delete anything — `storage.deleteUser` does not exist, so the
handler answers 500 — and rejecting a missing account answers 404. -/
theorem rejectUser_delete_is_broken :
    patchUserRole adminU usersSt 2 true = Except.ok (usersSt, approvedJudge) ∧
    patchUserRole adminU usersSt 2 false =
      Except.error (HttpError.serverError "Failed to update user role") ∧
    patchUserRole adminU usersSt 99 false =
      Except.error (HttpError.notFound "User not found") := by
  refine ⟨?_, rfl, rfl⟩
  rfl

/-- C9 counterexample: initialization seeds eight apparatus, not the four
(Floor, Vault, Bars, Beam) the claim states. -/
theorem initializeApparatus_eight_not_four :
    (getApparatus (initializeApparatus emptyStorage)).map (fun a => a.name) =
      ["Floor Exercise", "Pommel Horse", "Still Rings", "Vault", "Parallel Bars",
       "High Bar", "Balance Beam", "Uneven Bars"] ∧
    (getApparatus (initializeApparatus emptyStorage)).length = 8 ∧ (8 : Nat) ≠ 4 := by
  refine ⟨?_, ?_, ?_⟩ <;> decide

/-- C9 as amended: the catalog is fixed reference data of exactly the eight
seeded apparatus; re-initialization changes nothing, and neither score
creation, user updates nor roster resolution writes the apparatus table. -/
theorem apparatus_catalog_eight_fixed :
    (getApparatus (initializeApparatus emptyStorage)).map (fun a => (a.name, a.code)) =
      [("Floor Exercise", "FX"), ("Pommel Horse", "PH"), ("Still Rings", "SR"),
       ("Vault", "VT"), ("Parallel Bars", "PB"), ("High Bar", "HB"),
       ("Balance Beam", "BB"), ("Uneven Bars", "UB")] ∧
    initializeApparatus (initializeApparatus emptyStorage) =
      initializeApparatus emptyStorage ∧
    (∀ (st : Storage) (b : InsertScore), ((createScore st b).1).apparatus = st.apparatus) ∧
    (∀ (st : Storage) (id : Nat) (role : Role) (isApproved : Bool),
      (updateUserRole st id role isApproved).apparatus = st.apparatus) ∧
    (∀ (sessionId : Nat) (entries : List RosterEntry) (st : Storage),
      ((resolveBatch sessionId st entries).1).apparatus = st.apparatus) := by
  refine ⟨by decide, by decide, fun st b => rfl, fun st id role isApproved => rfl,
    resolveBatch_apparatus⟩

/-- C10: the per-gymnast stats endpoint serves the stats exactly to the
gymnast themselves or an admin; every other authenticated requester is denied
with "Access denied". -/
theorem gymnastStats_access_control :
    ∀ (cu : User) (st : Storage) (id : Nat),
      (cu.id ≠ id ∧ cu.role ≠ Role.admin →
        getGymnastStatsRoute cu st id =
          Except.error (HttpError.forbidden "Access denied")) ∧
      ((cu.id = id ∨ cu.role = Role.admin) →
        getGymnastStatsRoute cu st id = Except.ok (getGymnastStats st id)) := by
  intro cu st id
  unfold getGymnastStatsRoute
  constructor
  · intro h; rw [if_pos h]
  · intro h; rw [if_neg (by tauto)]

/-- C2 counterexample: an approved judge submitting difficulty 1, execution 1,
deductions 0 with finalScore 99 is accepted, and the persisted row violates
`final = clamp(difficulty + execution − deductions, 0, difficulty + execution)`. -/
theorem postScore_accepts_invariant_violation :
    postScore judgeU emptyStorage badBody =
      Except.ok ({ emptyStorage with scores := [badStored], nextScoreId := 2 }, badStored) ∧
    badStored.finalScore ≠
      clampSpec (badStored.difficultyScore + badStored.executionScore - badStored.deductions)
        0 (badStored.difficultyScore + badStored.executionScore) := by
  refine ⟨rfl, ?_⟩
  norm_num [badStored, clampSpec]

/-- C2 as amended: the score-submission operation persists the submitted
fields verbatim (with judgeId overwritten by the caller) and appends the row,
enforcing no relation between finalScore and the other fields. -/
theorem postScore_persists_submitted :
    ∀ (cu : User) (st : Storage) (b : InsertScore) (st' : Storage) (sc : Score),
      postScore cu st b = Except.ok (st', sc) →
      sc.finalScore = b.finalScore ∧ sc.difficultyScore = b.difficultyScore ∧
      sc.executionScore = b.executionScore ∧ sc.deductions = b.deductions ∧
      sc.judgeId = cu.id ∧ st'.scores = st.scores ++ [sc] := by
  intro cu st b st' sc h
  unfold postScore at h
  split_ifs at h with h1 h2
  unfold createScore at h
  simp only [Except.ok.injEq, Prod.mk.injEq] at h
  obtain ⟨hst, hsc⟩ := h
  subst hst
  subst hsc
  simp

/-- Witness for C2's amended theorem at the concrete counterexample
submission. -/
theorem postScore_persists_submitted_witness :
    badStored.finalScore = badBody.finalScore ∧
    badStored.difficultyScore = badBody.difficultyScore ∧
    badStored.executionScore = badBody.executionScore ∧
    badStored.deductions = badBody.deductions ∧
    badStored.judgeId = judgeU.id ∧
    ({ emptyStorage with scores := [badStored], nextScoreId := 2 } : Storage).scores =
      emptyStorage.scores ++ [badStored] :=
  postScore_persists_submitted judgeU emptyStorage badBody
    { emptyStorage with scores := [badStored], nextScoreId := 2 } badStored rfl

/-- C4 counterexample: with two stored entries for the tuple (session 1,
gymnast 1, floor) — final 5 created first, final 9 created later — `getScore`
returns the earlier entry, and the stats aggregation averages both entries
(giving 7), so neither uses only the most recently created entry. -/
theorem getScore_ignores_latest :
    getScore dupSt 1 1 1 = some dupOld ∧
    dupOld.finalScore = 5 ∧ dupNew.finalScore = 9 ∧
    getGymnastStats dupSt 1 =
      some ⟨1, some 9, some 7, [⟨"Floor Exercise", 2, some 7, some 9⟩]⟩ := by
  refine ⟨rfl, rfl, rfl, ?_⟩
  norm_num [getGymnastStats, joinedRows, groupApparatus, listMaxQ, listAvgQ, dupSt,
    dupOld, dupNew, exEvent, exSession, exFloor, List.insertionSort, List.orderedInsert,
    dateDescOrd, List.filter, List.flatMap, List.dedup]
  exact ⟨by simp, by simp⟩

/-- C4 as amended: for a resubmitted tuple `getScore` is the
earliest-created matching entry (the first match in table order), and score
creation retains every older entry — history is kept, but the authoritative
entry used by reads is the oldest, not the most recent, and stats aggregate
over all entries. -/
theorem getScore_earliest_and_history :
    (∀ (st : Storage) (sessionId gymnastId apparatusId : Nat)
        (l₁ l₂ : List Score) (s : Score),
      st.scores = l₁ ++ s :: l₂ →
      (∀ s' ∈ l₁, ¬(s'.sessionId = sessionId ∧ s'.gymnastId = gymnastId ∧
        s'.apparatusId = apparatusId)) →
      s.sessionId = sessionId → s.gymnastId = gymnastId → s.apparatusId = apparatusId →
      getScore st sessionId gymnastId apparatusId = some s) ∧
    (∀ (st : Storage) (b : InsertScore) (s : Score),
      s ∈ st.scores → s ∈ ((createScore st b).1).scores) := by
  constructor
  · intro st sessionId gymnastId apparatusId l₁ l₂ s hsc hnone h1 h2 h3
    unfold getScore
    rw [hsc, List.filter_append]
    have hnil : l₁.filter (fun s' =>
        decide (s'.sessionId = sessionId ∧ s'.gymnastId = gymnastId ∧
          s'.apparatusId = apparatusId)) = [] := by
      rw [List.filter_eq_nil_iff]
      intro a ha
      simpa using hnone a ha
    rw [hnil, List.nil_append, List.filter_cons_of_pos (by simp [h1, h2, h3])]
    rfl
  · intro st b s hs
    simp only [createScore]
    exact List.mem_append_left _ hs

/-- C6: for a gymnast target, the role-patch endpoint can succeed only for a
caller of role club whose clubName equals the gymnast's clubAffiliation
exactly; any caller of another role, or whose clubName differs in any way,
gets the permission error and nothing is performed. -/
theorem gymnastApproval_requires_nominated_club :
    ∀ (cu : User) (st : Storage) (id : Nat) (isApproved : Bool) (target : User),
      getUser st id = some target → target.role = Role.gymnast →
      ((cu.role ≠ Role.club ∨ cu.clubName ≠ target.clubAffiliation) →
        patchUserRole cu st id isApproved =
          Except.error
            (HttpError.forbidden "Only the nominated club can approve gymnast accounts")) ∧
      (∀ (st' : Storage) (u : User),
        patchUserRole cu st id isApproved = Except.ok (st', u) →
        cu.role = Role.club ∧ cu.clubName = target.clubAffiliation) := by
  intro cu st id isApproved target hget hrole
  have hred : patchUserRole cu st id isApproved =
      if target.role = Role.gymnast then
        if cu.role ≠ Role.club ∨ cu.clubName ≠ target.clubAffiliation then
          Except.error
            (HttpError.forbidden "Only the nominated club can approve gymnast accounts")
        else patchApply st id target isApproved
      else
        if cu.role ≠ Role.admin then
          Except.error (HttpError.forbidden "Only admins can approve these accounts")
        else patchApply st id target isApproved := by
    unfold patchUserRole
    rw [hget]
  rw [hred, if_pos hrole]
  constructor
  · intro h; rw [if_pos h]
  · intro st' u hok
    by_contra hc
    rw [if_pos (by tauto)] at hok
    exact absurd hok (by simp)

/-- Witness for C6 at a concrete case-mismatch: the club "club A" cannot
approve the gymnast who nominated "Club A". -/
theorem gymnastApproval_requires_nominated_club_witness :
    patchUserRole mismatchClub gymSt 2 true =
      Except.error
        (HttpError.forbidden "Only the nominated club can approve gymnast accounts") :=
  (gymnastApproval_requires_nominated_club mismatchClub gymSt 2 true gymTarget rfl rfl).1
    (Or.inr (by decide))

/-- C8 counterexample: a participant whose only routine total is 0 still gets
`totalCompetitions = 1` (the code counts distinct event names over all rows,
not only positive ones, where the claim prescribes 0), and the returned record
carries empty-maximum best and average (the JS `-Infinity`/`NaN`) instead of
an explicit no-history result. -/
theorem getGymnastStats_counts_zero_competition :
    getGymnastStats zeroSt 1 =
      some ⟨1, none, none, [⟨"Floor Exercise", 0, none, none⟩]⟩ ∧
    specTotalCompetitions zeroSt 1 = 0 ∧ (1 : Nat) ≠ 0 := by
  refine ⟨?_, ?_, by decide⟩ <;>
    norm_num [getGymnastStats, specTotalCompetitions, joinedRows, groupApparatus,
      listMaxQ, listAvgQ, zeroSt, exEvent, exSession, exFloor, List.insertionSort,
      List.orderedInsert, dateDescOrd, List.filter, List.flatMap, List.dedup]

/-- C8 as amended: best and average are computed only over totals `> 0` and
the Floor example [8.0, 0.0, 9.5] gives count 2, average 8.75, best 9.5; the
aggregation returns the no-history `none` exactly when the participant has no
rows at all, and a returned best score is the greatest positive total (absent
exactly when no total is positive). -/
theorem getGymnastStats_positive_only :
    (getGymnastStats floorSt 1 =
      some ⟨1, some (19/2), some (35/4),
        [⟨"Floor Exercise", 2, some (35/4), some (19/2)⟩]⟩) ∧
    (∀ (st : Storage) (gymnastId : Nat),
      getGymnastStats st gymnastId = none ↔ joinedRows st gymnastId = []) ∧
    (∀ (st : Storage) (gymnastId : Nat) (stats : GymnastStats),
      getGymnastStats st gymnastId = some stats →
      (stats.bestScore = none ↔ positiveTotals st gymnastId = []) ∧
      (∀ b, stats.bestScore = some b →
        b ∈ positiveTotals st gymnastId ∧
        ∀ t ∈ positiveTotals st gymnastId, t ≤ b)) := by
  refine ⟨?_, ?_, ?_⟩
  · norm_num [getGymnastStats, joinedRows, groupApparatus, listMaxQ, listAvgQ, floorSt,
      exEvent, exSession, exFloor, List.insertionSort, List.orderedInsert, dateDescOrd,
      List.filter, List.flatMap, List.dedup]
    exact ⟨by simp, by simp⟩
  · intro st gymnastId
    simp only [getGymnastStats]
    by_cases h : joinedRows st gymnastId = []
    · rw [if_pos h]; simp [h]
    · rw [if_neg h]; simp [h]
  · intro st gymnastId stats h
    by_cases hrows : joinedRows st gymnastId = []
    · simp [getGymnastStats, hrows] at h
    · simp only [getGymnastStats] at h
      rw [if_neg hrows] at h
      simp only [Option.some.injEq] at h
      have hbest : stats.bestScore = listMaxQ (positiveTotals st gymnastId) := by
        rw [← h]
        rfl
      constructor
      · rw [hbest, listMaxQ_eq_none_iff]
      · intro b hb
        rw [hbest] at hb
        exact ⟨listMaxQ_mem hb, fun t ht => le_listMaxQ ht hb⟩

/-- The batch loop resolves every entry per the per-entry contract and
appends exactly one session attachment per entry, in order. -/
theorem resolveBatch_resolves (sessionId : Nat) :
    ∀ (entries : List RosterEntry) (st : Storage),
      List.Forall₂ (entryResolved st.users ((resolveBatch sessionId st entries).1))
        entries ((resolveBatch sessionId st entries).2) ∧
      ((resolveBatch sessionId st entries).1).sessionGymnasts =
        st.sessionGymnasts ++
          ((resolveBatch sessionId st entries).2).map
            (fun r => SessionGymnast.mk sessionId r.gymnastId) := by
  intro entries
  induction entries with
  | nil => intro st; exact ⟨List.Forall₂.nil, by simp [resolveBatch]⟩
  | cons e rest ih =>
    intro st
    obtain ⟨ihf, ihsg⟩ := ih (resolveEntry sessionId st e).1
    simp only [resolveBatch]
    constructor
    · refine List.Forall₂.cons ?_ ?_
      · exact entryResolved_mono
          (fun g hg => resolveBatch_gymnasts_mono sessionId rest _ g hg)
          (resolveEntry_resolved sessionId st e)
      · rw [← resolveEntry_users sessionId st e]
        exact ihf
    · rw [List.map_cons, ihsg, resolveEntry_attachment]
      simp

/-- C5: an authorized roster submission resolves the whole batch — one result
per entry in order, never touching the users table (so repeated calls search
the same accounts and matched entries rebind the same stable id), with
exactly one session attachment per entry; each entry is either bound to the
first exactly-matching gymnast account (`matched = true`) or to a freshly
created auto-approved provisional row unlinked to any account
(`matched = false`). -/
theorem addGymnastsToSession_resolves :
    ∀ (cu : User) (st : Storage) (sessionId : Nat) (entries : List RosterEntry),
      cu.role = Role.admin ∨ cu.role = Role.club →
      ∃ (st' : Storage) (results : List RosterResult),
        addGymnastsToSessionRoute cu st sessionId entries = Except.ok (st', results) ∧
        results.length = entries.length ∧
        List.Forall₂ (entryResolved st.users st') entries results ∧
        st'.users = st.users ∧
        (∀ firstName lastName : String,
          searchGymnastsByName st' firstName lastName =
            searchGymnastsByName st firstName lastName) ∧
        st'.sessionGymnasts = st.sessionGymnasts ++
          results.map (fun r => SessionGymnast.mk sessionId r.gymnastId) := by
  intro cu st sessionId entries hrole
  obtain ⟨hf, hsg⟩ := resolveBatch_resolves sessionId entries st
  have husers := resolveBatch_users sessionId entries st
  refine ⟨(resolveBatch sessionId st entries).1, (resolveBatch sessionId st entries).2,
    ?_, (List.Forall₂.length_eq hf).symm, hf, husers, ?_, hsg⟩
  · unfold addGymnastsToSessionRoute
    rw [if_neg (by tauto)]
  · intro firstName lastName
    rw [searchGymnastsByName, searchGymnastsByName, husers]

/-- Witness for C5: a concrete admin submits one roster entry to session 1 of
an empty database. -/
theorem addGymnastsToSession_resolves_witness :
    ∃ (st' : Storage) (results : List RosterResult),
      addGymnastsToSessionRoute adminU emptyStorage 1 [janeEntry] =
        Except.ok (st', results) ∧
      results.length = [janeEntry].length ∧
      List.Forall₂ (entryResolved emptyStorage.users st') [janeEntry] results ∧
      st'.users = emptyStorage.users ∧
      (∀ firstName lastName : String,
        searchGymnastsByName st' firstName lastName =
          searchGymnastsByName emptyStorage firstName lastName) ∧
      st'.sessionGymnasts = emptyStorage.sessionGymnasts ++
        results.map (fun r => SessionGymnast.mk 1 r.gymnastId) :=
  addGymnastsToSession_resolves adminU emptyStorage 1 [janeEntry] (Or.inl rfl)

end GymTracker
